import Mathlib

/-!
Verification development for the TheodoraQ quiz backend controller
(`backend/controllers` quiz controller). The controller handlers are
embedded as pure Lean functions over an explicit store state:

* the per-question repair pass inside `generateQuiz` (the "normalizer"),
* the effective question-count computation,
* the advisory response message selection,
* the CRUD handlers `generateQuiz`, `createManualQuiz`, `getQuizById`,
  `deleteQuiz`, `updateQuiz` with their ownership checks.

JavaScript particulars carried over faithfully:

* `q.options[0] || "No answer provided"` yields the fallback string both
  when the options list is empty and when its first entry is the empty
  string (falsy);
* `parseInt(numberOfQuestions) || 5` yields 5 both for non-numeric input
  (NaN) and for an input that parses to 0 (falsy);
* `timeLimit || 10` yields 10 when the supplied time limit is absent or 0;
* `!prompt` / `!title` are true for a missing value and for the empty
  string;
* the external provider call is abstracted as an `Except` parameter: an
  `.error` models the thrown API error, an `.ok` models a successfully
  parsed candidate quiz (the JSON slicing/parsing steps are not needed by
  any property below and all of their failure branches leave the store
  untouched, like every other branch of the handler).
-/

namespace TheodoraQ

/-- A question of a candidate or stored quiz, with the fields the
controller reads: `text`, `type`, `options`, `answer`. -/
structure Question where
  text : String
  type : String
  options : List String
  answer : String
deriving DecidableEq, Repr

/-- JavaScript `options[0] || default`: the head of the list unless the
list is empty or its head is the empty string (falsy). -/
def truthyHead (options : List String) (default : String) : String :=
  match options with
  | [] => default
  | o :: _ => if o = "" then default else o

/-- Repair step 1 of the normalizer: for `mcq`/`true_false` questions whose
answer is not among the options, replace the answer with
`options[0] || "No answer provided"`. -/
def fixAnswer (q : Question) : Question :=
  if (q.type = "mcq" ∨ q.type = "true_false") ∧ q.answer ∉ q.options then
    { q with answer := truthyHead q.options "No answer provided" }
  else q

/-- The `while (q.options.length < 4) push("Option " + (length+1))` loop,
written with explicit fuel; the loop in the controller runs at most 4
times because each iteration grows the list by one and stops at
length 4. -/
def padOptionsAux : Nat → List String → List String
  | 0, options => options
  | fuel + 1, options =>
    if options.length < 4 then
      padOptionsAux fuel (options ++ ["Option " ++ toString (options.length + 1)])
    else options

/-- Pad an options list with `"Option N"` placeholders until it has at
least 4 entries; lists of 4 or more entries are returned unchanged. -/
def padOptions (options : List String) : List String :=
  padOptionsAux 4 options

/-- Repair step 2 of the normalizer: an `mcq` question with fewer than 4
options gets placeholder options appended up to length 4. -/
def fixMcqOptions (q : Question) : Question :=
  if q.type = "mcq" ∧ q.options.length < 4 then
    { q with options := padOptions q.options }
  else q

/-- Repair step 3 of the normalizer: a `true_false` question whose options
do not contain `"True"` gets options `["True", "False"]`, and its answer is
forced to `"True"` unless it already is `"True"` or `"False"`. -/
def fixTrueFalse (q : Question) : Question :=
  if q.type = "true_false" ∧ "True" ∉ q.options then
    { q with
      options := ["True", "False"],
      answer := if q.answer ∈ (["True", "False"] : List String) then q.answer else "True" }
  else q

/-- The full per-question repair pass of the `validatedQuestions` map
callback, steps applied in source order. -/
def validateQuestion (q : Question) : Question :=
  fixTrueFalse (fixMcqOptions (fixAnswer q))

/-- The normalizer: `aiJson.questions.map(...)` applying the repair pass to
every question in original order. -/
def validateQuestions (qs : List Question) : List Question :=
  qs.map validateQuestion

/-- Effective question count:
`Math.max(1, Math.min(50, parseInt(numberOfQuestions) || 5))`.
`none` models a missing or non-numeric input (`parseInt` gave NaN); an
input parsing to 0 is falsy and also defaults to 5. -/
def questionCountOf (numberOfQuestions : Option Int) : Int :=
  max 1 (min 50 (match numberOfQuestions with
    | none => 5
    | some n => if n = 0 then 5 else n))

/-- JavaScript `n > 1 ? 's' : ''` pluralization suffix. -/
def pluralS (n : Int) : String :=
  if n > 1 then "s" else ""

/-- Advisory message selection of the generate handler: success message on
exact match, shortfall message when fewer questions came back, excess
message when more came back. -/
def responseMessage (questionCount actualCount : Int) : String :=
  if actualCount < questionCount then
    "AI generated " ++ toString actualCount ++ " questions (requested "
      ++ toString questionCount ++ "). " ++ toString (questionCount - actualCount)
      ++ " question" ++ pluralS (questionCount - actualCount)
      ++ " short. You can add more questions manually or regenerate."
  else if actualCount > questionCount then
    "AI generated " ++ toString actualCount ++ " questions (requested "
      ++ toString questionCount ++ "). " ++ toString (actualCount - questionCount)
      ++ " extra question" ++ pluralS (actualCount - questionCount)
      ++ ". You can remove extras if needed."
  else "Quiz generated successfully. Review and save when ready."

/-- A stored quiz document: store-assigned `id`, `title`, `questions`,
`timeLimit`, and the `adminId` of the creating administrator. -/
structure Quiz where
  id : Nat
  title : String
  questions : List Question
  timeLimit : Int
  adminId : String
deriving DecidableEq, Repr

/-- The persistent quiz store: the collection of quiz documents, plus the
next identifier the store will assign. -/
structure Store where
  quizzes : List Quiz
  nextId : Nat
deriving DecidableEq, Repr

/-- `Quiz.findById`: the stored quiz with the given identifier, if any. -/
def findById (store : Store) (id : Nat) : Option Quiz :=
  store.quizzes.find? (fun q => q.id = id)

/-- The `data` object of a successful generate response:
`{ title, questions, timeLimit }`. -/
structure QuizData where
  title : String
  questions : List Question
  timeLimit : Int
deriving DecidableEq, Repr

/-- The JSON body (plus HTTP status) sent by the generate handler. A
`preview` of `none` models the field being absent from the body. -/
structure GenerateResponse where
  status : Nat
  success : Bool
  data : Option QuizData
  message : String
  error : Option String
  preview : Option Bool
deriving DecidableEq, Repr

/-- The JSON body (plus HTTP status) sent by the CRUD handlers; `data`
carries the affected quiz document when one is returned. -/
structure CrudResponse where
  status : Nat
  success : Bool
  data : Option Quiz
  message : String
deriving DecidableEq, Repr

/-- JavaScript `!s` on a string-valued request field: true when the field
is missing or the empty string. -/
def isBlank (s : Option String) : Bool :=
  match s with
  | none => true
  | some t => t = ""

/-- The request body of `POST /api/quiz/generate` together with the
requester identity supplied by the auth middleware (`req.user`). -/
structure GenerateRequest where
  prompt : Option String
  quizType : Option String
  numberOfQuestions : Option Int
  user : Option String
deriving DecidableEq, Repr

/-- The candidate quiz parsed from the provider response text
(`aiJson`). -/
structure AiJson where
  title : String
  questions : List Question
deriving DecidableEq, Repr

/-- The `generateQuiz` handler. `apiKey` models the `GEMINI_API_KEY`
environment variable; `provider` models the outcome of the external
model call (`.error e` for a thrown API error with message `e`, `.ok`
for a response that parsed into a candidate quiz). Returns the response
and the store after the request; no branch of the handler writes to the
store. -/
def generateQuiz (req : GenerateRequest) (apiKey : Option String)
    (provider : Except String AiJson) (store : Store) :
    GenerateResponse × Store :=
  if isBlank req.prompt then
    ({ status := 400, success := false, data := none,
       message := "Prompt is required", error := none, preview := none }, store)
  else if req.user = none then
    ({ status := 401, success := false, data := none,
       message := "You must be logged in to create a quiz", error := none,
       preview := none }, store)
  else
    let questionCount := questionCountOf req.numberOfQuestions
    match apiKey with
    | none =>
      ({ status := 500, success := false, data := none,
         message := "Gemini API key is not configured", error := none,
         preview := none }, store)
    | some _ =>
      match provider with
      | .error apiError =>
        ({ status := 500, success := false, data := none,
           message := "Failed to connect to AI service. Please check your API key and try again.",
           error := some apiError, preview := none }, store)
      | .ok aiJson =>
        let validatedQuestions := validateQuestions aiJson.questions
        let actualCount : Int := validatedQuestions.length
        ({ status := 200, success := true,
           data := some { title := aiJson.title, questions := validatedQuestions,
                          timeLimit := 10 },
           message := responseMessage questionCount actualCount, error := none,
           preview := some true }, store)

/-- The request body of `POST /api/quiz/manual` together with the
requester identity from the auth middleware. -/
structure CreateRequest where
  title : Option String
  questions : Option (List Question)
  timeLimit : Option Int
  user : Option String
deriving DecidableEq, Repr

/-- The quiz document `createManualQuiz` builds and saves:
`timeLimit || 10` defaults an absent or zero time limit to 10, and the
store assigns the next identifier. -/
def newQuizOf (req : CreateRequest) (store : Store) : Quiz :=
  { id := store.nextId,
    title := req.title.getD "",
    questions := req.questions.getD [],
    timeLimit := match req.timeLimit with
      | none => 10
      | some t => if t = 0 then 10 else t,
    adminId := req.user.getD "" }

/-- The `createManualQuiz` handler: missing-field validation, then the
authentication check, then save. -/
def createManualQuiz (req : CreateRequest) (store : Store) :
    CrudResponse × Store :=
  if isBlank req.title ∨ req.questions = none ∨ req.questions = some [] then
    ({ status := 400, success := false, data := none,
       message := "Title and at least one question are required" }, store)
  else if req.user = none then
    ({ status := 401, success := false, data := none,
       message := "You must be logged in to create a quiz" }, store)
  else
    let newQuiz := newQuizOf req store
    ({ status := 201, success := true, data := some newQuiz,
       message := "Quiz created successfully" },
     { quizzes := store.quizzes ++ [newQuiz], nextId := store.nextId + 1 })

/-- The `getQuizById` handler: `NotFound` when the id is absent. With no
requester identity, `adminId.toString()` throws and the catch block sends
the 500 body; otherwise a non-owner gets 403 and the owner the full
quiz. -/
def getQuizById (id : Nat) (user : Option String) (store : Store) :
    CrudResponse × Store :=
  match findById store id with
  | none =>
    ({ status := 404, success := false, data := none,
       message := "Quiz not found" }, store)
  | some quiz =>
    match user with
    | none =>
      ({ status := 500, success := false, data := none,
         message := "Failed to fetch quiz" }, store)
    | some adminId =>
      if quiz.adminId ≠ adminId then
        ({ status := 403, success := false, data := none,
           message := "Not authorized to view this quiz" }, store)
      else
        ({ status := 200, success := true, data := some quiz,
           message := "" }, store)

/-- The `deleteQuiz` handler: lookup, ownership check, then
`findByIdAndDelete` removes the document with that id. -/
def deleteQuiz (id : Nat) (user : Option String) (store : Store) :
    CrudResponse × Store :=
  match findById store id with
  | none =>
    ({ status := 404, success := false, data := none,
       message := "Quiz not found" }, store)
  | some quiz =>
    match user with
    | none =>
      ({ status := 500, success := false, data := none,
         message := "Failed to delete quiz" }, store)
    | some adminId =>
      if quiz.adminId ≠ adminId then
        ({ status := 403, success := false, data := none,
           message := "Not authorized to delete this quiz" }, store)
      else
        ({ status := 200, success := true, data := none,
           message := "Quiz deleted successfully" },
         { store with quizzes := store.quizzes.filter (fun q => ¬ q.id = id) })

/-- The update patch: the `title`, `questions`, `timeLimit` fields of the
`PUT /api/quiz/:id` body; `none` models a field absent (`undefined`). -/
structure UpdatePatch where
  title : Option String
  questions : Option (List Question)
  timeLimit : Option Int
deriving DecidableEq, Repr

/-- The three `if (field !== undefined) quiz.field = field` assignments of
the update handler. -/
def applyPatch (quiz : Quiz) (patch : UpdatePatch) : Quiz :=
  let quiz := match patch.title with
    | some t => { quiz with title := t }
    | none => quiz
  let quiz := match patch.questions with
    | some qs => { quiz with questions := qs }
    | none => quiz
  match patch.timeLimit with
  | some t => { quiz with timeLimit := t }
  | none => quiz

/-- The `updateQuiz` handler: lookup, ownership check, apply the present
patch fields, then `quiz.save()` persists the modified document in
place. -/
def updateQuiz (id : Nat) (patch : UpdatePatch) (user : Option String)
    (store : Store) : CrudResponse × Store :=
  match findById store id with
  | none =>
    ({ status := 404, success := false, data := none,
       message := "Quiz not found" }, store)
  | some quiz =>
    match user with
    | none =>
      ({ status := 500, success := false, data := none,
         message := "Failed to update quiz" }, store)
    | some adminId =>
      if quiz.adminId ≠ adminId then
        ({ status := 403, success := false, data := none,
           message := "Not authorized to edit this quiz" }, store)
      else
        let updated := applyPatch quiz patch
        ({ status := 200, success := true, data := some updated,
           message := "Quiz updated successfully" },
         { store with
           quizzes := store.quizzes.map (fun q => if q.id = id then updated else q) })

/-! Concrete fixtures used by the witness theorems below. -/

/-- A store with no quizzes. -/
def sampleStoreEmpty : Store := ⟨[], 1⟩

/-- A stored quiz owned by administrator `owner1`. -/
def sampleQuiz : Quiz :=
  ⟨1, "Capitals", [⟨"Q", "short_answer", [], "Paris"⟩], 10, "owner1"⟩

/-- A store holding `sampleQuiz`. -/
def sampleStore : Store := ⟨[sampleQuiz], 2⟩

/-- A well-formed generate request for 5 questions. -/
def sampleGenReq : GenerateRequest :=
  ⟨some "Roman history", some "mcq", some 5, some "admin1"⟩

/-- A parsed candidate quiz with 3 questions needing no repair. -/
def sampleAi : AiJson :=
  ⟨"Rome", [⟨"Q1", "short_answer", [], "A1"⟩, ⟨"Q2", "short_answer", [], "A2"⟩,
            ⟨"Q3", "short_answer", [], "A3"⟩]⟩

/-- A well-formed manual-create request. -/
def sampleCreateReq : CreateRequest :=
  ⟨some "T", some [⟨"Q", "short_answer", [], "A"⟩], none, some "admin1"⟩

/-- A patch supplying a new title and time limit but no questions. -/
def samplePatch : UpdatePatch := ⟨some "New title", none, some 20⟩

/-- A generate request with every field missing. -/
def blankGenReq : GenerateRequest := ⟨none, none, none, none⟩

/-- A manual-create request with every field missing. -/
def blankCreateReq : CreateRequest := ⟨none, none, none, none⟩

/-! Helper lemmas about the padding loop and the falsy-head fallback. -/

/-- The padding loop only ever appends to its input list. -/
theorem padOptionsAux_append (fuel : Nat) (l : List String) :
    ∃ t, padOptionsAux fuel l = l ++ t := by
  induction fuel generalizing l with
  | zero => exact ⟨[], (List.append_nil l).symm⟩
  | succ n ih =>
    simp only [padOptionsAux]
    by_cases hl : l.length < 4
    · rw [if_pos hl]
      obtain ⟨t, ht⟩ := ih (l ++ ["Option " ++ toString (l.length + 1)])
      exact ⟨("Option " ++ toString (l.length + 1)) :: t, by rw [ht, List.append_assoc]; rfl⟩
    · rw [if_neg hl]
      exact ⟨[], (List.append_nil l).symm⟩

/-- Length of the padding loop result: the input length grows towards 4
until the fuel runs out, and is never shrunk. -/
theorem padOptionsAux_length (fuel : Nat) (l : List String) :
    (padOptionsAux fuel l).length = max l.length (min 4 (l.length + fuel)) := by
  induction fuel generalizing l with
  | zero => simp only [padOptionsAux]; omega
  | succ n ih =>
    simp only [padOptionsAux]
    by_cases hl : l.length < 4
    · rw [if_pos hl, ih]
      simp only [List.length_append, List.length_cons, List.length_nil]
      omega
    · rw [if_neg hl]
      omega

/-- `padOptions` only appends to its input list. -/
theorem padOptions_append (l : List String) : ∃ t, padOptions l = l ++ t :=
  padOptionsAux_append 4 l

/-- `padOptions` pads up to length 4 and never truncates. -/
theorem padOptions_length (l : List String) :
    (padOptions l).length = max l.length 4 := by
  rw [padOptions, padOptionsAux_length]; omega

/-- Membership is preserved by padding. -/
theorem mem_padOptions (l : List String) (a : String) (h : a ∈ l) :
    a ∈ padOptions l := by
  obtain ⟨t, ht⟩ := padOptions_append l
  rw [ht]; exact List.mem_append_left t h

/-- The falsy-head fallback is an element of the list or the default. -/
theorem truthyHead_mem_or (l : List String) (d : String) :
    truthyHead l d ∈ l ∨ truthyHead l d = d := by
  cases l with
  | nil => exact Or.inr rfl
  | cons x xs =>
    by_cases hx : x = ""
    · exact Or.inr (by simp [truthyHead, hx])
    · exact Or.inl (by simp [truthyHead, hx])

/-- The falsy-head fallback only looks at the head, so appending to a
non-empty list does not change it. -/
theorem truthyHead_append (l t : List String) (d : String) (h : l ≠ []) :
    truthyHead (l ++ t) d = truthyHead l d := by
  cases l with
  | nil => exact absurd rfl h
  | cons x xs => rfl

/-- Field-level description of `applyPatch`: each present patch field is
applied, each absent field keeps its prior value, and the identifier and
owner are never touched. -/
theorem applyPatch_fields (quiz : Quiz) (patch : UpdatePatch) :
    (applyPatch quiz patch).title = patch.title.getD quiz.title ∧
    (applyPatch quiz patch).questions = patch.questions.getD quiz.questions ∧
    (applyPatch quiz patch).timeLimit = patch.timeLimit.getD quiz.timeLimit ∧
    (applyPatch quiz patch).id = quiz.id ∧
    (applyPatch quiz patch).adminId = quiz.adminId := by
  obtain ⟨pt, pq, pl⟩ := patch
  cases pt <;> cases pq <;> cases pl <;>
    exact ⟨rfl, rfl, rfl, rfl, rfl⟩

/-! Characterizations of the per-question repair pass by question type. -/

/-- The repair pass on an `mcq` question: the answer is replaced first
(against the original options), then the options are padded. -/
theorem validateQuestion_mcq_eq (x : String) (l : List String) (a : String) :
    validateQuestion ⟨x, "mcq", l, a⟩ =
      ⟨x, "mcq", if l.length < 4 then padOptions l else l,
        if a ∈ l then a else truthyHead l "No answer provided"⟩ := by
  simp only [validateQuestion, fixAnswer, fixMcqOptions, fixTrueFalse]
  by_cases ha : a ∈ l <;> by_cases hl : l.length < 4 <;> simp [ha, hl]

/-- The repair pass on a `true_false` question: the answer is replaced
first (against the original options), then options lacking `"True"` are
forced to `["True", "False"]` with the answer coerced into that set. -/
theorem validateQuestion_tf_eq (x : String) (l : List String) (a : String) :
    validateQuestion ⟨x, "true_false", l, a⟩ =
      if "True" ∈ l then
        ⟨x, "true_false", l, if a ∈ l then a else truthyHead l "No answer provided"⟩
      else
        ⟨x, "true_false", ["True", "False"],
          if (if a ∈ l then a else truthyHead l "No answer provided")
              ∈ (["True", "False"] : List String) then
            (if a ∈ l then a else truthyHead l "No answer provided")
          else "True"⟩ := by
  simp only [validateQuestion, fixAnswer, fixMcqOptions, fixTrueFalse]
  by_cases ha : a ∈ l <;> by_cases hT : "True" ∈ l <;> simp [ha, hT]

/-- The repair pass leaves questions of any other type untouched. -/
theorem validateQuestion_other_eq (q : Question) (h1 : q.type ≠ "mcq")
    (h2 : q.type ≠ "true_false") : validateQuestion q = q := by
  simp [validateQuestion, fixAnswer, fixMcqOptions, fixTrueFalse, h1, h2]

/-- The repair pass never changes the type of a question. -/
theorem validateQuestion_type (q : Question) :
    (validateQuestion q).type = q.type := by
  obtain ⟨x, ty, l, a⟩ := q
  by_cases h1 : ty = "mcq"
  · subst h1; rw [validateQuestion_mcq_eq]
  · by_cases h2 : ty = "true_false"
    · subst h2; rw [validateQuestion_tf_eq]; split <;> rfl
    · rw [validateQuestion_other_eq _ h1 h2]

/-- The repair pass is idempotent on every question that is not an `mcq`
question with an empty options list. -/
theorem validateQuestion_idem (q : Question)
    (h : q.type = "mcq" → q.options ≠ []) :
    validateQuestion (validateQuestion q) = validateQuestion q := by
  obtain ⟨x, ty, l, a⟩ := q
  by_cases h1 : ty = "mcq"
  · subst h1
    have hl : l ≠ [] := h rfl
    rw [validateQuestion_mcq_eq, validateQuestion_mcq_eq]
    have hlen2 : ¬ (if l.length < 4 then padOptions l else l).length < 4 := by
      by_cases hlen : l.length < 4
      · rw [if_pos hlen, padOptions_length]; omega
      · rw [if_neg hlen]; omega
    rw [if_neg hlen2]
    congr 1
    by_cases hmem : (if a ∈ l then a else truthyHead l "No answer provided")
        ∈ (if l.length < 4 then padOptions l else l)
    · rw [if_pos hmem]
    · rw [if_neg hmem]
      have ha : a ∉ l := by
        intro ha
        apply hmem
        rw [if_pos ha]
        by_cases hlen : l.length < 4
        · rw [if_pos hlen]; exact mem_padOptions l a ha
        · rw [if_neg hlen]; exact ha
      rw [if_neg ha]
      by_cases hlen : l.length < 4
      · rw [if_pos hlen]
        obtain ⟨t, ht⟩ := padOptions_append l
        rw [ht, truthyHead_append l t _ hl]
      · rw [if_neg hlen]
  · by_cases h2 : ty = "true_false"
    · subst h2
      rw [validateQuestion_tf_eq]
      by_cases hT : "True" ∈ l
      · rw [if_pos hT, validateQuestion_tf_eq, if_pos hT]
        congr 1
        by_cases hmem : (if a ∈ l then a else truthyHead l "No answer provided") ∈ l
        · rw [if_pos hmem]
        · rw [if_neg hmem]
          have ha : a ∉ l := fun ha => hmem (by rw [if_pos ha]; exact ha)
          rw [if_neg ha]
      · rw [if_neg hT, validateQuestion_tf_eq]
        have hT2 : ("True" : String) ∈ (["True", "False"] : List String) := by simp
        rw [if_pos hT2]
        congr 1
        by_cases hin : (if a ∈ l then a else truthyHead l "No answer provided")
            ∈ (["True", "False"] : List String)
        · rw [if_pos hin, if_pos hin]
        · rw [if_neg hin, if_pos hT2]
    · rw [validateQuestion_other_eq ⟨x, ty, l, a⟩ h1 h2,
          validateQuestion_other_eq ⟨x, ty, l, a⟩ h1 h2]

/-- On a valid request with a configured key, a provider success yields
the 200 preview response built from the normalized questions, and the
store passes through untouched. -/
theorem generateQuiz_ok (req : GenerateRequest) (key : String)
    (ai : AiJson) (store : Store)
    (hp : isBlank req.prompt = false) (hu : req.user ≠ none) :
    generateQuiz req (some key) (.ok ai) store =
      ({ status := 200, success := true,
         data := some { title := ai.title,
                        questions := validateQuestions ai.questions,
                        timeLimit := 10 },
         message := responseMessage (questionCountOf req.numberOfQuestions)
           ((validateQuestions ai.questions).length : Int),
         error := none, preview := some true }, store) := by
  simp [generateQuiz, hp, hu]

/-- On a valid request with a configured key, a thrown provider error
yields the 500 failure response carrying the error message, and the store
passes through untouched. -/
theorem generateQuiz_error (req : GenerateRequest) (key : String)
    (e : String) (store : Store)
    (hp : isBlank req.prompt = false) (hu : req.user ≠ none) :
    generateQuiz req (some key) (.error e) store =
      ({ status := 500, success := false, data := none,
         message := "Failed to connect to AI service. Please check your API key and try again.",
         error := some e, preview := none }, store) := by
  simp [generateQuiz, hp, hu]

/-! Claim theorems. -/

/-- C1, counterexample: it is not the case that every `mcq` question in
the normalizer output has exactly 4 options and an answer among them. An
`mcq` question with no options gets answer `"No answer provided"`, which
is not among the 4 padded placeholder options; an `mcq` question with 5
options keeps all 5. -/
theorem C1_counterexample :
    ¬ (∀ q ∈ validateQuestions
        [⟨"Q1", "mcq", [], "Paris"⟩, ⟨"Q2", "mcq", ["A", "B", "C", "D", "E"], "A"⟩],
        q.type = "mcq" → q.options.length = 4 ∧ q.answer ∈ q.options) := by
  decide

/-- C1, amended: every `mcq` question in the normalizer output has at
least 4 options — exactly 4 when the candidate question carried at most 4,
and the candidate options list is only ever extended, never truncated
(carried unchanged when it already had 4 or more) — and an answer that is
either an element of the options list or the literal
`"No answer provided"`. -/
theorem C1_mcq_normalized (qs : List Question) (q : Question) (hq : q ∈ qs)
    (hty : q.type = "mcq") :
    validateQuestion q ∈ validateQuestions qs ∧
    (validateQuestion q).type = "mcq" ∧
    4 ≤ (validateQuestion q).options.length ∧
    (q.options.length ≤ 4 → (validateQuestion q).options.length = 4) ∧
    (4 ≤ q.options.length → (validateQuestion q).options = q.options) ∧
    (∃ t, (validateQuestion q).options = q.options ++ t) ∧
    ((validateQuestion q).answer ∈ (validateQuestion q).options ∨
      (validateQuestion q).answer = "No answer provided") := by
  obtain ⟨x, ty, l, a⟩ := q
  replace hty : ty = "mcq" := hty
  subst hty
  have hmem : validateQuestion ⟨x, "mcq", l, a⟩ ∈ validateQuestions qs :=
    List.mem_map_of_mem _ hq
  rw [validateQuestion_mcq_eq] at hmem ⊢
  dsimp only
  refine ⟨hmem, rfl, ?_, ?_, ?_, ?_, ?_⟩
  · by_cases hlen : l.length < 4
    · rw [if_pos hlen, padOptions_length]; omega
    · rw [if_neg hlen]; omega
  · intro h4
    by_cases hlen : l.length < 4
    · rw [if_pos hlen, padOptions_length]; omega
    · rw [if_neg hlen]; omega
  · intro h4
    rw [if_neg (by omega)]
  · by_cases hlen : l.length < 4
    · rw [if_pos hlen]; exact padOptions_append l
    · rw [if_neg hlen]; exact ⟨[], (List.append_nil l).symm⟩
  · by_cases ha : a ∈ l
    · rw [if_pos ha]
      left
      by_cases hlen : l.length < 4
      · rw [if_pos hlen]; exact mem_padOptions l a ha
      · rw [if_neg hlen]; exact ha
    · rw [if_neg ha]
      rcases truthyHead_mem_or l "No answer provided" with hm | he
      · left
        by_cases hlen : l.length < 4
        · rw [if_pos hlen]; exact mem_padOptions l _ hm
        · rw [if_neg hlen]; exact hm
      · right; exact he

/-- C1, witness: instance of the amended theorem for an `mcq` question
with one option and a stray answer. -/
theorem C1_mcq_normalized_witness :
    validateQuestion ⟨"Q", "mcq", ["A"], "B"⟩ ∈
      validateQuestions [⟨"Q", "mcq", ["A"], "B"⟩] ∧
    (validateQuestion ⟨"Q", "mcq", ["A"], "B"⟩).type = "mcq" ∧
    4 ≤ (validateQuestion ⟨"Q", "mcq", ["A"], "B"⟩).options.length ∧
    ((⟨"Q", "mcq", ["A"], "B"⟩ : Question).options.length ≤ 4 →
      (validateQuestion ⟨"Q", "mcq", ["A"], "B"⟩).options.length = 4) ∧
    (4 ≤ (⟨"Q", "mcq", ["A"], "B"⟩ : Question).options.length →
      (validateQuestion ⟨"Q", "mcq", ["A"], "B"⟩).options =
        (⟨"Q", "mcq", ["A"], "B"⟩ : Question).options) ∧
    (∃ t, (validateQuestion ⟨"Q", "mcq", ["A"], "B"⟩).options =
      (⟨"Q", "mcq", ["A"], "B"⟩ : Question).options ++ t) ∧
    ((validateQuestion ⟨"Q", "mcq", ["A"], "B"⟩).answer ∈
        (validateQuestion ⟨"Q", "mcq", ["A"], "B"⟩).options ∨
      (validateQuestion ⟨"Q", "mcq", ["A"], "B"⟩).answer = "No answer provided") :=
  C1_mcq_normalized [⟨"Q", "mcq", ["A"], "B"⟩] ⟨"Q", "mcq", ["A"], "B"⟩
    (by decide) rfl

/-- C2, counterexample: a `true_false` question whose options already
contain `"True"` is left untouched, so options `["True", "Maybe"]` with
answer `"Maybe"` survive normalization unchanged. -/
theorem C2_counterexample :
    ¬ (∀ q ∈ validateQuestions [⟨"Q", "true_false", ["True", "Maybe"], "Maybe"⟩],
        q.type = "true_false" →
          q.options = ["True", "False"] ∧
          (q.answer = "True" ∨ q.answer = "False")) := by
  decide

/-- C2, amended: for every `true_false` question in the normalizer
output, if the candidate options list does not contain `"True"` then the
output options are exactly `["True", "False"]` and the answer is `"True"`
or `"False"`; when the candidate options already contain `"True"` the
repair step leaves the options list as it is. -/
theorem C2_tf_normalized (qs : List Question) (q : Question) (hq : q ∈ qs)
    (hty : q.type = "true_false") :
    validateQuestion q ∈ validateQuestions qs ∧
    (validateQuestion q).type = "true_false" ∧
    ("True" ∉ q.options →
      (validateQuestion q).options = ["True", "False"] ∧
      ((validateQuestion q).answer = "True" ∨
        (validateQuestion q).answer = "False")) ∧
    ("True" ∈ q.options → (validateQuestion q).options = q.options) := by
  obtain ⟨x, ty, l, a⟩ := q
  replace hty : ty = "true_false" := hty
  subst hty
  have hmem : validateQuestion ⟨x, "true_false", l, a⟩ ∈ validateQuestions qs :=
    List.mem_map_of_mem _ hq
  rw [validateQuestion_tf_eq] at hmem ⊢
  by_cases hT : "True" ∈ l
  · rw [if_pos hT] at hmem ⊢
    dsimp only
    refine ⟨hmem, rfl, fun hc => absurd hT hc, fun _ => rfl⟩
  · rw [if_neg hT] at hmem ⊢
    dsimp only
    refine ⟨hmem, rfl, fun _ => ⟨rfl, ?_⟩, fun hc => absurd hc hT⟩
    by_cases hin : (if a ∈ l then a else truthyHead l "No answer provided")
        ∈ (["True", "False"] : List String)
    · rw [if_pos hin]
      rw [List.mem_cons, List.mem_singleton] at hin
      exact hin
    · rw [if_neg hin]
      left; rfl

/-- C2, witness: instance of the amended theorem for a `true_false`
question with options lacking the string True. -/
theorem C2_tf_normalized_witness :
    validateQuestion ⟨"Q", "true_false", ["Yes", "No"], "Yes"⟩ ∈
      validateQuestions [⟨"Q", "true_false", ["Yes", "No"], "Yes"⟩] ∧
    (validateQuestion ⟨"Q", "true_false", ["Yes", "No"], "Yes"⟩).type = "true_false" ∧
    ("True" ∉ (⟨"Q", "true_false", ["Yes", "No"], "Yes"⟩ : Question).options →
      (validateQuestion ⟨"Q", "true_false", ["Yes", "No"], "Yes"⟩).options =
        ["True", "False"] ∧
      ((validateQuestion ⟨"Q", "true_false", ["Yes", "No"], "Yes"⟩).answer = "True" ∨
        (validateQuestion ⟨"Q", "true_false", ["Yes", "No"], "Yes"⟩).answer = "False")) ∧
    ("True" ∈ (⟨"Q", "true_false", ["Yes", "No"], "Yes"⟩ : Question).options →
      (validateQuestion ⟨"Q", "true_false", ["Yes", "No"], "Yes"⟩).options =
        (⟨"Q", "true_false", ["Yes", "No"], "Yes"⟩ : Question).options) :=
  C2_tf_normalized [⟨"Q", "true_false", ["Yes", "No"], "Yes"⟩]
    ⟨"Q", "true_false", ["Yes", "No"], "Yes"⟩ (by decide) rfl

/-- C3, counterexample: the repair pass is not idempotent. An `mcq`
question with an empty options list gets answer `"No answer provided"` on
the first pass and answer `"Option 1"` on the second. -/
theorem C3_counterexample :
    validateQuestions (validateQuestions [⟨"Q", "mcq", [], "Paris"⟩]) ≠
      validateQuestions [⟨"Q", "mcq", [], "Paris"⟩] := by
  decide

/-- C3, amended: the normalizer is idempotent on every parsed candidate
whose `mcq` questions all carry a non-empty options list; the only
non-idempotent case is an `mcq` question with an empty options list. -/
theorem C3_normalizer_idem (qs : List Question)
    (h : ∀ q ∈ qs, q.type = "mcq" → q.options ≠ []) :
    validateQuestions (validateQuestions qs) = validateQuestions qs := by
  unfold validateQuestions
  rw [List.map_map]
  apply List.map_congr_left
  intro q hq
  have hidem := validateQuestion_idem q (h q hq)
  simpa using hidem

/-- C3, witness: instance of the amended theorem on a one-question
candidate whose repair is visibly non-trivial. -/
theorem C3_normalizer_idem_witness :
    validateQuestions (validateQuestions [⟨"Q", "mcq", ["A"], "B"⟩]) =
      validateQuestions [⟨"Q", "mcq", ["A"], "B"⟩] :=
  C3_normalizer_idem [⟨"Q", "mcq", ["A"], "B"⟩] (by decide)

/-- C4, counterexample: an input that parses to 0 is falsy in
`parseInt(numberOfQuestions) || 5`, so the effective count is the default
5 and not the clamped value 1. -/
theorem C4_counterexample :
    questionCountOf (some 0) = 5 ∧ max 1 (min 50 (0 : Int)) = 1 := by
  constructor
  · have h : questionCountOf (some 0) = max 1 (min 50 5) := rfl
    rw [h]; omega
  · omega

/-- C4, amended: for every numeric input other than 0 the effective
question count is the input clamped to the interval from 1 to 50;
non-numeric or missing input defaults to 5, and so does an input that
parses to 0. -/
theorem C4_effective_count (n : Int) (hn : n ≠ 0) :
    questionCountOf (some n) = max 1 (min 50 n) ∧
    questionCountOf none = 5 ∧
    questionCountOf (some 0) = 5 := by
  refine ⟨?_, ?_, ?_⟩
  · simp [questionCountOf, hn]
  · have h : questionCountOf none = max 1 (min 50 5) := rfl
    rw [h]; omega
  · have h : questionCountOf (some 0) = max 1 (min 50 5) := rfl
    rw [h]; omega

/-- C4, witness: instance of the amended theorem at input 100, clamped
down to 50. -/
theorem C4_effective_count_witness :
    questionCountOf (some 100) = max 1 (min 50 (100 : Int)) ∧
    questionCountOf none = 5 ∧
    questionCountOf (some 0) = 5 :=
  C4_effective_count 100 (by decide)

/-- C5, confirmed: on successful generation the advisory message is
selected three ways from the effective requested count and the returned
question count: equal counts give the success message, fewer returned
gives the shortfall message naming the difference, more returned gives
the excess message naming the difference. -/
theorem C5_advisory_message (req : GenerateRequest) (key : String)
    (ai : AiJson) (store : Store)
    (hp : isBlank req.prompt = false) (hu : req.user ≠ none) :
    (generateQuiz req (some key) (.ok ai) store).1.success = true ∧
    (((validateQuestions ai.questions).length : Int) =
        questionCountOf req.numberOfQuestions →
      (generateQuiz req (some key) (.ok ai) store).1.message =
        "Quiz generated successfully. Review and save when ready.") ∧
    (((validateQuestions ai.questions).length : Int) <
        questionCountOf req.numberOfQuestions →
      (generateQuiz req (some key) (.ok ai) store).1.message =
        "AI generated " ++ toString ((validateQuestions ai.questions).length : Int)
          ++ " questions (requested "
          ++ toString (questionCountOf req.numberOfQuestions) ++ "). "
          ++ toString (questionCountOf req.numberOfQuestions -
                ((validateQuestions ai.questions).length : Int))
          ++ " question"
          ++ pluralS (questionCountOf req.numberOfQuestions -
                ((validateQuestions ai.questions).length : Int))
          ++ " short. You can add more questions manually or regenerate.") ∧
    (((validateQuestions ai.questions).length : Int) >
        questionCountOf req.numberOfQuestions →
      (generateQuiz req (some key) (.ok ai) store).1.message =
        "AI generated " ++ toString ((validateQuestions ai.questions).length : Int)
          ++ " questions (requested "
          ++ toString (questionCountOf req.numberOfQuestions) ++ "). "
          ++ toString (((validateQuestions ai.questions).length : Int) -
                questionCountOf req.numberOfQuestions)
          ++ " extra question"
          ++ pluralS (((validateQuestions ai.questions).length : Int) -
                questionCountOf req.numberOfQuestions)
          ++ ". You can remove extras if needed.") := by
  rw [generateQuiz_ok req key ai store hp hu]
  dsimp only
  refine ⟨rfl, ?_, ?_, ?_⟩
  · intro hEq
    simp only [responseMessage]
    rw [if_neg (by omega), if_neg (by omega)]
  · intro hLt
    simp only [responseMessage]
    rw [if_pos hLt]
  · intro hGt
    simp only [responseMessage]
    rw [if_neg (by omega), if_pos hGt]

/-- C5, witness: a request for 5 questions answered by a 3-question
candidate. -/
theorem C5_advisory_message_witness :
    (generateQuiz sampleGenReq (some "k") (.ok sampleAi) sampleStoreEmpty).1.success = true ∧
    (((validateQuestions sampleAi.questions).length : Int) =
        questionCountOf sampleGenReq.numberOfQuestions →
      (generateQuiz sampleGenReq (some "k") (.ok sampleAi) sampleStoreEmpty).1.message =
        "Quiz generated successfully. Review and save when ready.") ∧
    (((validateQuestions sampleAi.questions).length : Int) <
        questionCountOf sampleGenReq.numberOfQuestions →
      (generateQuiz sampleGenReq (some "k") (.ok sampleAi) sampleStoreEmpty).1.message =
        "AI generated " ++ toString ((validateQuestions sampleAi.questions).length : Int)
          ++ " questions (requested "
          ++ toString (questionCountOf sampleGenReq.numberOfQuestions) ++ "). "
          ++ toString (questionCountOf sampleGenReq.numberOfQuestions -
                ((validateQuestions sampleAi.questions).length : Int))
          ++ " question"
          ++ pluralS (questionCountOf sampleGenReq.numberOfQuestions -
                ((validateQuestions sampleAi.questions).length : Int))
          ++ " short. You can add more questions manually or regenerate.") ∧
    (((validateQuestions sampleAi.questions).length : Int) >
        questionCountOf sampleGenReq.numberOfQuestions →
      (generateQuiz sampleGenReq (some "k") (.ok sampleAi) sampleStoreEmpty).1.message =
        "AI generated " ++ toString ((validateQuestions sampleAi.questions).length : Int)
          ++ " questions (requested "
          ++ toString (questionCountOf sampleGenReq.numberOfQuestions) ++ "). "
          ++ toString (((validateQuestions sampleAi.questions).length : Int) -
                questionCountOf sampleGenReq.numberOfQuestions)
          ++ " extra question"
          ++ pluralS (((validateQuestions sampleAi.questions).length : Int) -
                questionCountOf sampleGenReq.numberOfQuestions)
          ++ ". You can remove extras if needed.") :=
  C5_advisory_message sampleGenReq "k" sampleAi sampleStoreEmpty (by decide) (by decide)

/-- C6, confirmed: no branch of the generate handler writes to the quiz
store, the successful generate response is tagged as a preview and carries
the normalized quiz, reads leave the store unchanged, delete and update
never add a quiz, and only the manual-create handler appends a quiz to the
store. -/
theorem C6_generate_no_persist (req : GenerateRequest) (apiKey : Option String)
    (provider : Except String AiJson) (ai : AiJson) (creq : CreateRequest)
    (id : Nat) (user : Option String) (patch : UpdatePatch) (store : Store) :
    (generateQuiz req apiKey provider store).2 = store ∧
    ((generateQuiz req apiKey (.ok ai) store).1.success = true →
      (generateQuiz req apiKey (.ok ai) store).1.preview = some true ∧
      (generateQuiz req apiKey (.ok ai) store).1.data =
        some { title := ai.title, questions := validateQuestions ai.questions,
               timeLimit := 10 }) ∧
    (getQuizById id user store).2 = store ∧
    ((deleteQuiz id user store).2).quizzes.length ≤ store.quizzes.length ∧
    ((updateQuiz id patch user store).2).quizzes.length = store.quizzes.length ∧
    ((createManualQuiz creq store).2 = store ∨
      (createManualQuiz creq store).2.quizzes =
        store.quizzes ++ [newQuizOf creq store]) := by
  refine ⟨?_, ?_, ?_, ?_, ?_, ?_⟩
  · by_cases h1 : isBlank req.prompt = true
    · simp [generateQuiz, h1]
    · by_cases h2 : req.user = none
      · simp [generateQuiz, h1, h2]
      · rcases apiKey with _ | k
        · simp [generateQuiz, h1, h2]
        · rcases provider with e | a <;> simp [generateQuiz, h1, h2]
  · intro hs
    by_cases h1 : isBlank req.prompt = true
    · exact absurd hs (by simp [generateQuiz, h1])
    · by_cases h2 : req.user = none
      · exact absurd hs (by simp [generateQuiz, h1, h2])
      · rcases apiKey with _ | k
        · exact absurd hs (by simp [generateQuiz, h1, h2])
        · have h1f : isBlank req.prompt = false := by simpa using h1
          rw [generateQuiz_ok req k ai store h1f h2]
          exact ⟨rfl, rfl⟩
  · unfold getQuizById
    cases hf : findById store id with
    | none => rfl
    | some quiz =>
      cases user with
      | none => rfl
      | some u =>
        dsimp only
        split <;> rfl
  · unfold deleteQuiz
    cases hf : findById store id with
    | none => exact le_refl _
    | some quiz =>
      cases user with
      | none => exact le_refl _
      | some u =>
        dsimp only
        split
        · exact le_refl _
        · exact List.length_filter_le _ _
  · unfold updateQuiz
    cases hf : findById store id with
    | none => rfl
    | some quiz =>
      cases user with
      | none => rfl
      | some u =>
        dsimp only
        split
        · rfl
        · exact List.length_map _ _
  · unfold createManualQuiz
    split
    · left; rfl
    · split
      · left; rfl
      · right; rfl

/-- C6, witness: instance of the frame theorem on a populated store with a
request that generates successfully. -/
theorem C6_generate_no_persist_witness :
    (generateQuiz sampleGenReq (some "k") (.ok sampleAi) sampleStore).2 = sampleStore ∧
    ((generateQuiz sampleGenReq (some "k") (.ok sampleAi) sampleStore).1.success = true →
      (generateQuiz sampleGenReq (some "k") (.ok sampleAi) sampleStore).1.preview = some true ∧
      (generateQuiz sampleGenReq (some "k") (.ok sampleAi) sampleStore).1.data =
        some { title := sampleAi.title,
               questions := validateQuestions sampleAi.questions,
               timeLimit := 10 }) ∧
    (getQuizById 1 (some "owner1") sampleStore).2 = sampleStore ∧
    ((deleteQuiz 1 (some "owner1") sampleStore).2).quizzes.length ≤
      sampleStore.quizzes.length ∧
    ((updateQuiz 1 samplePatch (some "owner1") sampleStore).2).quizzes.length =
      sampleStore.quizzes.length ∧
    ((createManualQuiz sampleCreateReq sampleStore).2 = sampleStore ∨
      (createManualQuiz sampleCreateReq sampleStore).2.quizzes =
        sampleStore.quizzes ++ [newQuizOf sampleCreateReq sampleStore]) :=
  C6_generate_no_persist sampleGenReq (some "k") (.ok sampleAi) sampleAi
    sampleCreateReq 1 (some "owner1") samplePatch sampleStore

/-- C7, confirmed: when the external provider call fails on an otherwise
valid request, the generate handler returns success false with status 500,
carries the underlying cause, contains no quiz data, and substitutes no
fallback content. -/
theorem C7_provider_failure (req : GenerateRequest) (key : String)
    (e : String) (store : Store)
    (hp : isBlank req.prompt = false) (hu : req.user ≠ none) :
    (generateQuiz req (some key) (.error e) store).1.success = false ∧
    (generateQuiz req (some key) (.error e) store).1.data = none ∧
    (generateQuiz req (some key) (.error e) store).1.error = some e ∧
    (generateQuiz req (some key) (.error e) store).1.status = 500 ∧
    (generateQuiz req (some key) (.error e) store).2 = store := by
  rw [generateQuiz_error req key e store hp hu]
  exact ⟨rfl, rfl, rfl, rfl, rfl⟩

/-- C7, witness: a provider failure with message boom on a valid
request. -/
theorem C7_provider_failure_witness :
    (generateQuiz sampleGenReq (some "k") (.error "boom") sampleStoreEmpty).1.success = false ∧
    (generateQuiz sampleGenReq (some "k") (.error "boom") sampleStoreEmpty).1.data = none ∧
    (generateQuiz sampleGenReq (some "k") (.error "boom") sampleStoreEmpty).1.error = some "boom" ∧
    (generateQuiz sampleGenReq (some "k") (.error "boom") sampleStoreEmpty).1.status = 500 ∧
    (generateQuiz sampleGenReq (some "k") (.error "boom") sampleStoreEmpty).2 = sampleStoreEmpty :=
  C7_provider_failure sampleGenReq "k" "boom" sampleStoreEmpty (by decide) (by decide)

/-- C8, confirmed: for every stored quiz and every requester different
from the stored owner, getById, delete and update all fail with status
403 and success false, whatever the patch, and delete and update leave the
store unchanged. -/
theorem C8_ownership (store : Store) (id : Nat) (quiz : Quiz)
    (requester : String) (patch : UpdatePatch)
    (hfind : findById store id = some quiz)
    (hown : quiz.adminId ≠ requester) :
    (getQuizById id (some requester) store).1.status = 403 ∧
    (getQuizById id (some requester) store).1.success = false ∧
    (deleteQuiz id (some requester) store).1.status = 403 ∧
    (deleteQuiz id (some requester) store).1.success = false ∧
    (updateQuiz id patch (some requester) store).1.status = 403 ∧
    (updateQuiz id patch (some requester) store).1.success = false ∧
    (getQuizById id (some requester) store).2 = store ∧
    (deleteQuiz id (some requester) store).2 = store ∧
    (updateQuiz id patch (some requester) store).2 = store := by
  simp only [getQuizById, deleteQuiz, updateQuiz, hfind]
  rw [if_pos hown, if_pos hown, if_pos hown]
  exact ⟨rfl, rfl, rfl, rfl, rfl, rfl, rfl, rfl, rfl⟩

/-- C8, witness: a stored quiz owned by owner1 addressed by a different
requester. -/
theorem C8_ownership_witness :
    (getQuizById 1 (some "intruder") sampleStore).1.status = 403 ∧
    (getQuizById 1 (some "intruder") sampleStore).1.success = false ∧
    (deleteQuiz 1 (some "intruder") sampleStore).1.status = 403 ∧
    (deleteQuiz 1 (some "intruder") sampleStore).1.success = false ∧
    (updateQuiz 1 samplePatch (some "intruder") sampleStore).1.status = 403 ∧
    (updateQuiz 1 samplePatch (some "intruder") sampleStore).1.success = false ∧
    (getQuizById 1 (some "intruder") sampleStore).2 = sampleStore ∧
    (deleteQuiz 1 (some "intruder") sampleStore).2 = sampleStore ∧
    (updateQuiz 1 samplePatch (some "intruder") sampleStore).2 = sampleStore :=
  C8_ownership sampleStore 1 sampleQuiz "intruder" samplePatch (by decide) (by decide)

/-- C9, confirmed: an update by the owner applies exactly the fields
present in the patch, every omitted field keeps its prior value, the
identifier and owner are untouched, and the stored collection is the old
one with that quiz replaced in place. -/
theorem C9_partial_update (store : Store) (id : Nat) (quiz : Quiz)
    (requester : String) (patch : UpdatePatch)
    (hfind : findById store id = some quiz)
    (hown : quiz.adminId = requester) :
    (updateQuiz id patch (some requester) store).1.status = 200 ∧
    (updateQuiz id patch (some requester) store).1.success = true ∧
    (updateQuiz id patch (some requester) store).1.data =
      some (applyPatch quiz patch) ∧
    (applyPatch quiz patch).title = patch.title.getD quiz.title ∧
    (applyPatch quiz patch).questions = patch.questions.getD quiz.questions ∧
    (applyPatch quiz patch).timeLimit = patch.timeLimit.getD quiz.timeLimit ∧
    (applyPatch quiz patch).id = quiz.id ∧
    (applyPatch quiz patch).adminId = quiz.adminId ∧
    (updateQuiz id patch (some requester) store).2.quizzes =
      store.quizzes.map (fun q => if q.id = id then applyPatch quiz patch else q) := by
  have hfields := applyPatch_fields quiz patch
  simp only [updateQuiz, hfind]
  rw [if_neg (fun hne => hne hown)]
  exact ⟨rfl, rfl, rfl, hfields.1, hfields.2.1, hfields.2.2.1,
    hfields.2.2.2.1, hfields.2.2.2.2, rfl⟩

/-- C9, witness: the owner patches title and time limit of the stored
quiz, leaving the questions untouched. -/
theorem C9_partial_update_witness :
    (updateQuiz 1 samplePatch (some "owner1") sampleStore).1.status = 200 ∧
    (updateQuiz 1 samplePatch (some "owner1") sampleStore).1.success = true ∧
    (updateQuiz 1 samplePatch (some "owner1") sampleStore).1.data =
      some (applyPatch sampleQuiz samplePatch) ∧
    (applyPatch sampleQuiz samplePatch).title =
      samplePatch.title.getD sampleQuiz.title ∧
    (applyPatch sampleQuiz samplePatch).questions =
      samplePatch.questions.getD sampleQuiz.questions ∧
    (applyPatch sampleQuiz samplePatch).timeLimit =
      samplePatch.timeLimit.getD sampleQuiz.timeLimit ∧
    (applyPatch sampleQuiz samplePatch).id = sampleQuiz.id ∧
    (applyPatch sampleQuiz samplePatch).adminId = sampleQuiz.adminId ∧
    (updateQuiz 1 samplePatch (some "owner1") sampleStore).2.quizzes =
      sampleStore.quizzes.map
        (fun q => if q.id = 1 then applyPatch sampleQuiz samplePatch else q) :=
  C9_partial_update sampleStore 1 sampleQuiz "owner1" samplePatch
    (by decide) (by decide)

/-- C10, confirmed: in both the generate and the manual-create handlers
the missing-field check runs before the authentication check, so a request
lacking the required fields and carrying no requester identity gets the
400 invalid-input failure, not the 401 unauthenticated failure. -/
theorem C10_validation_before_auth (req : GenerateRequest)
    (apiKey : Option String) (provider : Except String AiJson)
    (creq : CreateRequest) (store : Store)
    (hp : isBlank req.prompt = true) (_hu : req.user = none)
    (hc : isBlank creq.title = true ∨ creq.questions = none ∨
      creq.questions = some [])
    (_hcu : creq.user = none) :
    (generateQuiz req apiKey provider store).1.status = 400 ∧
    (generateQuiz req apiKey provider store).1.message = "Prompt is required" ∧
    (createManualQuiz creq store).1.status = 400 ∧
    (createManualQuiz creq store).1.message =
      "Title and at least one question are required" := by
  unfold generateQuiz createManualQuiz
  rw [if_pos hp, if_pos hc]
  exact ⟨rfl, rfl, rfl, rfl⟩

/-- C10, witness: fully blank generate and create requests with no
requester identity both fail with status 400. -/
theorem C10_validation_before_auth_witness :
    (generateQuiz blankGenReq none (.error "") sampleStoreEmpty).1.status = 400 ∧
    (generateQuiz blankGenReq none (.error "") sampleStoreEmpty).1.message =
      "Prompt is required" ∧
    (createManualQuiz blankCreateReq sampleStoreEmpty).1.status = 400 ∧
    (createManualQuiz blankCreateReq sampleStoreEmpty).1.message =
      "Title and at least one question are required" :=
  C10_validation_before_auth blankGenReq none (.error "") blankCreateReq
    sampleStoreEmpty (by decide) (by decide) (by decide) (by decide)

end TheodoraQ
